import Mathlib

/-!
Verification of the Redback smartbike IoT Kafka pipeline.

This file shallowly embeds the two core source modules:

* `sensors-backend-kafka/src/services/sensor-data-processors/EnhancedKafkaFeed.ts`
  (topic parsing, validation/quality scoring, retried persistence,
  dead-letter routing, the per-message consumer pipeline), and
* `websocket-kafka-bridge/src/server.ts`
  (connection registry, subscribe handling, room fan-out, stale-connection
  reaping),

and proves or refutes the frozen specification claims about them.

Modelling conventions: machine time (`Date.now()`) and payload numbers are
integers (JavaScript `Date.now()` is integral milliseconds; the quality
scoring logic is precision independent); the random backoff jitter
(`Math.random() * 1000`) is a rational supplied as an oracle; fallible or
external effects (JSON parsing, the database save, broker publishes) are
oracles or explicit outcome values.
-/

namespace RedbackIoT

/-- A JavaScript runtime value as it can appear in one field of a
JSON-parsed Kafka payload (the validator works on `any`). JSON cannot put
`NaN` or `undefined` inside an object, but an absent field reads as
`undefined`. Numbers are modelled at integral precision. `object` stands
for any object or array value; the pipeline never inspects payload
objects, so it is opaque. -/
inductive JsVal where
  | undef
  | null
  | num (n : ℤ)
  | str (s : String)
  | boolean (b : Bool)
  | object
  deriving DecidableEq, Repr

/-- JavaScript `ToBoolean` (truthiness) on the modelled values. -/
def JsVal.truthy : JsVal → Bool
  | .undef => false
  | .null => false
  | .num n => n != 0
  | .str s => s != ""
  | .boolean b => b
  | .object => true

/-- Whether `typeof v === 'number'`. -/
def JsVal.isNum : JsVal → Bool
  | .num _ => true
  | _ => false

/-- Whether `typeof v === 'string'`. -/
def JsVal.isStr : JsVal → Bool
  | .str _ => true
  | _ => false

/-- JavaScript `ToNumber` on the modelled values, with `none` playing `NaN`:
`undefined → NaN`, `null → 0`, booleans → 0/1, objects → `NaN` (via
`"[object Object]"`). String-to-number coercion (JavaScript would parse
numeric strings) is not modelled: string payload fields in this system are
unit names, which coerce to `NaN`. -/
def JsVal.toNum : JsVal → Option ℤ
  | .num n => some n
  | .null => some 0
  | .boolean b => some (if b then 1 else 0)
  | _ => none

/-- JavaScript `v < m` for numeric `m`: `ToNumber` then compare, any
comparison against `NaN` being false. -/
def jsLtInt (v : JsVal) (m : ℤ) : Bool :=
  match v.toNum with
  | some q => decide (q < m)
  | none => false

/-- JavaScript `v > m` for numeric `m`, `NaN` comparisons false. -/
def jsGtInt (v : JsVal) (m : ℤ) : Bool :=
  match v.toNum with
  | some q => decide (q > m)
  | none => false

/-- The per-sensor-type validation rules of `ENHANCED_DEVICE_TYPE_MAP`
(EnhancedKafkaFeed.ts lines 72-101): `{ min, max, unit }`. -/
structure ValidationRules where
  min : ℤ
  max : ℤ
  unit : String
  deriving DecidableEq, Repr

/-- The `DeviceType` enum members reachable from the enhanced feed's
device-type map (device.ts). -/
inductive SensorType where
  | heartRate
  | cadence
  | speed
  | power
  | resistance
  | incline
  | fan
  deriving DecidableEq, Repr

/-- `ENHANCED_DEVICE_TYPE_MAP` (EnhancedKafkaFeed.ts lines 72-101): maps the
sensor-type topic segment to the device type and its validation rules;
`none` for the seven-entry map's missing keys. -/
def ENHANCED_DEVICE_TYPE_MAP : String → Option (SensorType × ValidationRules)
  | "heartrate" => some (.heartRate, ⟨30, 220, "bpm"⟩)
  | "cadence" => some (.cadence, ⟨0, 200, "rpm"⟩)
  | "speed" => some (.speed, ⟨0, 80, "kmh"⟩)
  | "power" => some (.power, ⟨0, 2000, "watts"⟩)
  | "resistance" => some (.resistance, ⟨0, 100, "percent"⟩)
  | "incline" => some (.incline, ⟨-50, 50, "percent"⟩)
  | "fan" => some (.fan, ⟨0, 100, "percent"⟩)
  | _ => none

/-- Helper for `jsSplitDot`: accumulates the current segment (reversed). -/
def splitDotAux : List Char → List Char → List String
  | [], acc => [String.mk acc.reverse]
  | c :: cs, acc =>
    if c = '.' then String.mk acc.reverse :: splitDotAux cs []
    else splitDotAux cs (c :: acc)

/-- JavaScript `s.split('.')`: splits on every dot keeping empty segments
("a..b" → ["a","","b"], "" → [""]). Structural recursion on the character
list so concrete topics evaluate inside the kernel. -/
def jsSplitDot (s : String) : List String :=
  splitDotAux s.data []

/-- The successful result of `parseEnhancedKafkaTopic` (EnhancedKafkaFeed.ts
lines 104-130). -/
structure TopicInfo where
  deviceId : String
  deviceType : SensorType
  deviceConfig : ValidationRules
  isControlTopic : Bool
  deriving DecidableEq, Repr

/-- `parseEnhancedKafkaTopic` (EnhancedKafkaFeed.ts lines 104-130): split the
topic on dots; require at least 3 segments, segment 0 equal to "bike" and
segment 2 a key of `ENHANCED_DEVICE_TYPE_MAP`; `isControlTopic` iff segment 3
is exactly "control" (`topicParts[3] === 'control'`, an absent segment
comparing false). -/
def parseEnhancedKafkaTopic (topic : String) : Option TopicInfo :=
  match jsSplitDot topic with
  | ns :: dev :: ty :: rest =>
    if ns = "bike" then
      match ENHANCED_DEVICE_TYPE_MAP ty with
      | some cfg => some ⟨dev, cfg.1, cfg.2, rest.headD "" == "control"⟩
      | none => none
    else none
  | _ => none

/-- The fields of a JSON-parsed data payload that
`validateEnhancedKafkaDeviceData` reads. An absent field is `JsVal.undef`.
`timestamp` is kept at its JSON schema type (a unix-seconds number, or
absent); the other fields keep full JavaScript-value generality because the
validator type-checks them. -/
structure RawData where
  value : JsVal := .undef
  unitName : JsVal := .undef
  timestamp : Option ℤ := none
  deviceId : JsVal := .undef
  bikeId : JsVal := .undef
  metadata : JsVal := .undef
  messageId : JsVal := .undef
  version : JsVal := .undef
  deriving DecidableEq, Repr

/-- What `JSON.parse` handed to the validator: a JSON object (or a JSON
primitive, whose field reads are all `undefined` — use `obj` with `undef`
fields), or `null`/`undefined`, on which the validator's very first field
access throws `TypeError` and lands in its catch branch. -/
inductive RawInput where
  | obj (d : RawData)
  | nullish
  deriving DecidableEq, Repr

/-- The ambient effects the validator closes over: `Date.now()` in
milliseconds and the generated message id
(msg_ + Date.now() + Math.random suffix). -/
structure ValidationEnv where
  now : ℤ
  genId : String
  deriving DecidableEq, Repr

/-- Check 1 (line 142): `typeof data.value !== 'number' || isNaN(data.value)`.
A JSON-parsed number is never `NaN`, so the check reduces to the type test. -/
def valueFieldBad (d : RawData) : Bool :=
  !d.value.isNum

/-- Check 2 (line 147): `!data.unitName || typeof data.unitName !== 'string'`. -/
def unitNameBad (d : RawData) : Bool :=
  !d.unitName.truthy || !d.unitName.isStr

/-- Check 3 (line 154): `data.value < min || data.value > max`. -/
def valueOutOfRange (d : RawData) (rules : ValidationRules) : Bool :=
  jsLtInt d.value rules.min || jsGtInt d.value rules.max

/-- Check 4 (line 160): `data.unitName !== unit` — strict inequality, equal
only to the identical string. -/
def unitMismatch (d : RawData) (rules : ValidationRules) : Bool :=
  d.unitName != .str rules.unit

/-- Line 167: `data.timestamp ? data.timestamp * 1000 : now` (a zero or
absent timestamp is falsy and defaults to `now`). -/
def messageTime (env : ValidationEnv) (d : RawData) : ℤ :=
  match d.timestamp with
  | some t => if t != 0 then t * 1000 else env.now
  | none => env.now

/-- Check 5 (lines 168-170): `Math.abs(now - messageTime) > 5 * 60 * 1000`. -/
def timestampStale (env : ValidationEnv) (d : RawData) : Bool :=
  decide ((env.now - messageTime env d).natAbs > 5 * 60 * 1000)

/-- The error list the validator accumulates, in push order
(lines 142-173). The interpolated values of the source's template strings
are elided; no claim depends on the message text. -/
def validationErrors (env : ValidationEnv) (d : RawData)
    (rules : ValidationRules) : List String :=
  (if valueFieldBad d then ["Invalid or missing value field"] else []) ++
  (if unitNameBad d then ["Invalid or missing unitName field"] else []) ++
  (if valueOutOfRange d rules then ["Value out of range"] else []) ++
  (if unitMismatch d rules then ["Unit mismatch"] else []) ++
  (if timestampStale env d then
    ["Message timestamp is too old or in the future"] else [])

/-- The running `qualityScore` variable after all deductions
(lines 138-178), before the `Math.max(0, _)` clamp: 100, minus 50/30/40/20/10
for the five recorded checks, minus 5 for a falsy `deviceId`, 5 for a falsy
`bikeId` and 2 for a falsy `metadata` (lines 176-178, no error recorded). -/
def rawQualityScore (env : ValidationEnv) (d : RawData)
    (rules : ValidationRules) : ℤ :=
  100 - (if valueFieldBad d then 50 else 0)
      - (if unitNameBad d then 30 else 0)
      - (if valueOutOfRange d rules then 40 else 0)
      - (if unitMismatch d rules then 20 else 0)
      - (if timestampStale env d then 10 else 0)
      - (if d.deviceId.truthy then 0 else 5)
      - (if d.bikeId.truthy then 0 else 5)
      - (if d.metadata.truthy then 0 else 2)

/-- The normalized `IEnhancedKafkaDeviceData` the validator builds
(lines 180-194). `reportedAt` and `processingMetrics` hold wall-clock
`Date` objects with no claim about them and are omitted; the object spread
of unknown extra payload fields is likewise outside the model. -/
structure EnhancedData where
  value : Option ℤ
  unitName : JsVal
  timestamp : ℤ
  metadata : JsVal
  messageId : JsVal
  version : JsVal
  qualityScore : ℤ
  anomalyDetected : Bool
  deriving DecidableEq, Repr

/-- The validator's return shape (line 136). -/
structure ValidationResult where
  isValid : Bool
  data : Option EnhancedData
  qualityScore : ℤ
  errors : List String
  deriving DecidableEq, Repr

/-- `validateEnhancedKafkaDeviceData` (EnhancedKafkaFeed.ts lines 133-211).
On a `nullish` input the first field access throws and the catch branch
(lines 203-210) returns `isValid: false`, no `data`, `qualityScore: 0`.
Otherwise: the five recorded checks and three completeness deductions give
the score and error list; the returned data normalizes `value` by `Number()`
coercion, defaults `timestamp` to `Math.floor(now / 1000)`, `metadata` to
`{}`, `messageId` to the generated id and `version` to "2.0", clamps the
stored score at 0, and sets `anomalyDetected` iff the running (unclamped)
score is below 70. `isValid` iff no error was recorded. -/
def validateEnhancedKafkaDeviceData (env : ValidationEnv) (input : RawInput)
    (rules : ValidationRules) : ValidationResult :=
  match input with
  | .nullish =>
    { isValid := false
      data := none
      qualityScore := 0
      errors := ["Validation error: TypeError"] }
  | .obj d =>
    let errors := validationErrors env d rules
    let score := rawQualityScore env d rules
    let enhanced : EnhancedData :=
      { value := d.value.toNum
        unitName := d.unitName
        timestamp :=
          match d.timestamp with
          | some t => if t != 0 then t else env.now.fdiv 1000
          | none => env.now.fdiv 1000
        metadata := if d.metadata.truthy then d.metadata else .object
        messageId := if d.messageId.truthy then d.messageId else .str env.genId
        version := if d.version.truthy then d.version else .str "2.0"
        qualityScore := max 0 score
        anomalyDetected := decide (score < 70) }
    { isValid := errors.isEmpty
      data := some enhanced
      qualityScore := max 0 score
      errors := errors }

/-- What one run of `saveEnhancedDeviceData` (EnhancedKafkaFeed.ts
lines 214-278) did: how many attempts it made, the backoff delays (in
milliseconds, jitter included) it waited between attempts, and whether it
returned normally (`success`) or threw its last error. -/
structure SaveTrace where
  attempts : ℕ
  delays : List ℚ
  success : Bool
  deriving DecidableEq, Repr

/-- The body of the retry loop of `saveEnhancedDeviceData`, walking the
remaining attempt numbers. `fails a` is the oracle for whether
`newDeviceData.save()` throws on attempt `a`; `jitter a` is that attempt's
`Math.random() * 1000`. A failed attempt waits
`2 ^ attempt * 1000 + jitter attempt` milliseconds only when attempts
remain (`attempt < maxRetries`, i.e. the rest of the list is nonempty). -/
def saveAttemptLoop (fails : ℕ → Bool) (jitter : ℕ → ℚ) : List ℕ → SaveTrace
  | [] => ⟨0, [], false⟩
  | a :: rest =>
    if fails a then
      let t := saveAttemptLoop fails jitter rest
      ⟨t.attempts + 1,
        (if rest.isEmpty then [] else [(2 : ℚ) ^ a * 1000 + jitter a]) ++ t.delays,
        t.success⟩
    else ⟨1, [], true⟩

/-- `saveEnhancedDeviceData` (lines 214-278) as its observable retry
behaviour: run attempts `1, ..., maxRetries`, stopping at the first success;
on exhaustion the last error propagates (`success := false`). The database
write itself and the fire-and-forget metrics publish on success are the
oracles' side of the boundary. -/
def saveEnhancedDeviceData (fails : ℕ → Bool) (jitter : ℕ → ℚ)
    (maxRetries : ℕ) : SaveTrace :=
  saveAttemptLoop fails jitter (List.range' 1 maxRetries)

/-- The expected value of a failed attempt's backoff delay
`2 ^ attempt * 1000 + Math.random() * 1000`: the jitter is uniform on
[0, 1000), mean 500. -/
def expectedBackoffDelay (attempt : ℕ) : ℚ :=
  (2 : ℚ) ^ attempt * 1000 + 500

/-- The `errorType` tags `sendToEnhancedDLQ` is called with
(EnhancedKafkaFeed.ts lines 412, 431, 441, 458, 476). -/
inductive ErrorTag where
  | INVALID_TOPIC_FORMAT
  | JSON_PARSE_ERROR
  | VALIDATION_ERROR
  | DATABASE_SAVE_ERROR
  | UNEXPECTED_ERROR
  deriving DecidableEq, Repr

/-- The `additionalContext` argument of `sendToEnhancedDLQ` at its call
sites: nothing, the raw message text (`{ rawMessage }`), the validation
errors with the quality score (`{ validationErrors, qualityScore }`), or
the full validated reading (`{ deviceData }`). -/
inductive DlqContext where
  | noCtx
  | rawMessageCtx (raw : String)
  | validationCtx (errors : List String) (qualityScore : ℤ)
  | deviceDataCtx (d : EnhancedData)
  deriving DecidableEq, Repr

/-- An observable outcome of one `eachMessage` invocation: a dead-letter
publish, a successful durable persist, or the (to be proven unreachable)
dereference of the validator's absent `data` at the non-null assertion
`validationResult.data!` (line 451). -/
inductive Outcome where
  | dlqOut (tag : ErrorTag) (ctx : DlqContext)
  | persisted (d : EnhancedData)
  | derefCrash
  deriving DecidableEq, Repr

/-- What the Kafka library hands `eachMessage` as `message.value`, after the
two library-side steps the model treats as oracles: `absent` when
`message.value?.toString()` is falsy, `malformed s` when `JSON.parse(s)`
throws, `parsed r` when it yields `r`. -/
inductive MsgValue where
  | absent
  | malformed (s : String)
  | parsed (r : RawInput)
  deriving DecidableEq, Repr

/-- The save-and-dead-letter phase of `eachMessage` (lines 451-461): take
`validationResult.data!` — `derefCrash` if the data is in fact absent —
then save with up to 3 retries; a thrown save error is caught and
dead-lettered as `DATABASE_SAVE_ERROR` with `{ deviceData }` context. -/
def persistPhase (fails : ℕ → Bool) (jitter : ℕ → ℚ) (pre : List Outcome)
    (data? : Option EnhancedData) : List Outcome :=
  match data? with
  | none => pre ++ [.derefCrash]
  | some d =>
    if (saveEnhancedDeviceData fails jitter 3).success then
      pre ++ [.persisted d]
    else
      pre ++ [.dlqOut .DATABASE_SAVE_ERROR (.deviceDataCtx d)]

/-- `eachMessage` of `runEnhancedConsumer` (EnhancedKafkaFeed.ts
lines 395-478) as the ordered list of its outcomes: empty message → return;
unparseable topic → dead-letter `INVALID_TOPIC_FORMAT`; control topic →
return; `JSON.parse` failure → dead-letter `JSON_PARSE_ERROR` with the raw
text; then validation: an invalid result is dead-lettered
`VALIDATION_ERROR` with `{ validationErrors, qualityScore }` and, when its
quality score is below 50, processing stops there; otherwise the message
proceeds to `persistPhase`. Heartbeats, logging and metrics counters have
no outcome. -/
def eachMessage (env : ValidationEnv) (fails : ℕ → Bool) (jitter : ℕ → ℚ)
    (topic : String) (v : MsgValue) : List Outcome :=
  match v with
  | .absent => []
  | _ =>
    match parseEnhancedKafkaTopic topic with
    | none => [.dlqOut .INVALID_TOPIC_FORMAT .noCtx]
    | some ti =>
      if ti.isControlTopic then []
      else
        match v with
        | .absent => []
        | .malformed s => [.dlqOut .JSON_PARSE_ERROR (.rawMessageCtx s)]
        | .parsed raw =>
          let vr := validateEnhancedKafkaDeviceData env raw ti.deviceConfig
          if vr.isValid then
            persistPhase fails jitter [] vr.data
          else
            let pre : List Outcome :=
              [.dlqOut .VALIDATION_ERROR (.validationCtx vr.errors vr.qualityScore)]
            if vr.qualityScore < 50 then pre
            else persistPhase fails jitter pre vr.data

/-- Whether an outcome is a successful persist. -/
def isPersistedOutcome : Outcome → Bool
  | .persisted _ => true
  | _ => false

/-- Whether an outcome is a dead-letter publish (any tag). -/
def isDlqOutcome : Outcome → Bool
  | .dlqOut _ _ => true
  | _ => false

/-- Whether an outcome is a `VALIDATION_ERROR` dead-letter. -/
def isValidationDlq : Outcome → Bool
  | .dlqOut .VALIDATION_ERROR _ => true
  | _ => false

/-- Whether an outcome is a `DATABASE_SAVE_ERROR` dead-letter. -/
def isDbSaveDlq : Outcome → Bool
  | .dlqOut .DATABASE_SAVE_ERROR _ => true
  | _ => false

/-- A terminal outcome of a reading in the spec's sense: persisted or
dead-lettered. -/
def isTerminalOutcome (o : Outcome) : Bool :=
  isPersistedOutcome o || isDlqOutcome o

/-! ## Distribution bridge (websocket-kafka-bridge/src/server.ts) -/

/-- `DEVICE_TYPES` (server.ts lines 60-68). -/
def DEVICE_TYPES : List String :=
  ["heartrate", "cadence", "speed", "power", "resistance", "incline", "fan"]

/-- The `type` field of `ConnectionInfo`: `'websocket' | 'sse'`. -/
inductive TransportKind where
  | websocket
  | sse
  deriving DecidableEq, Repr

/-- `ConnectionInfo` (server.ts lines 71-79), times in epoch milliseconds.
The opaque `connection` handle (the socket object or the SSE response) is
owned externally and carries no claim; it is not modelled. -/
structure ConnectionInfo where
  id : String
  type : TransportKind
  connectedAt : ℤ
  lastActivity : ℤ
  subscriptions : List String
  deviceId : Option String
  deriving DecidableEq, Repr

/-- The bridge process state: the `activeConnections` map (entries listed
most recently set first; claims are order independent) together with the
socket.io server's room membership, one `(socket id, room)` pair per
`socket.join(room)`. The room state lives in the socket.io layer, outside
`activeConnections` — fan-out to websockets reads it, the reaper does not
touch it. -/
structure BridgeState where
  activeConnections : List ConnectionInfo
  socketRooms : List (String × String)
  deriving DecidableEq, Repr

/-- The empty bridge state at process start. -/
def initBridgeState : BridgeState := ⟨[], []⟩

/-- `activeConnections.get(id)` on the modelled map. -/
def lookupConn (id : String) (st : BridgeState) : Option ConnectionInfo :=
  st.activeConnections.find? (fun c => c.id == id)

/-- `activeConnections.set(c.id, c)`: overwrite any entry with the same id. -/
def setConn (c : ConnectionInfo) (l : List ConnectionInfo) : List ConnectionInfo :=
  c :: l.filter (fun c' => c'.id ≠ c.id)

/-- Idempotent insertion, modelling both `Set.add` on a subscription set
and `socket.join` on a room (each a no-op when already present). -/
def addIfAbsent {α : Type} [DecidableEq α] (l : List α) (x : α) : List α :=
  if x ∈ l then l else l ++ [x]

/-- The room key (server.ts lines 184, 286): `device_<deviceId>_<type>`. -/
def mkRoom (deviceId ty : String) : String :=
  "device_" ++ deviceId ++ "_" ++ ty

/-- The reaper's idle threshold `staleThreshold` (server.ts line 87):
5 minutes in milliseconds. -/
def staleThreshold : ℤ := 5 * 60 * 1000

/-- `io.on('connection')` registration (server.ts lines 146-159). A fresh
socket object belongs to no room, and socket.io never reuses a live socket
id, so any stale room pairs under this id are cleared. -/
def stepWsConnect (now : ℤ) (sid : String) (st : BridgeState) : BridgeState :=
  { activeConnections :=
      setConn ⟨sid, .websocket, now, now, [], none⟩ st.activeConnections
    socketRooms := st.socketRooms.filter (fun p => p.1 ≠ sid) }

/-- The `/events` SSE handler's registration (server.ts lines 107-143): the
connection id is `sse_` followed by the timestamp-derived suffix. -/
def stepSseConnect (now : ℤ) (suffix : String) (st : BridgeState) : BridgeState :=
  { st with
    activeConnections :=
      setConn ⟨"sse_" ++ suffix, .sse, now, now, [], none⟩ st.activeConnections }

/-- The `subscribe` event handler (server.ts lines 162-191). Unknown
connection: return, no acknowledgement. Otherwise: destructure with default
`deviceTypes = DEVICE_TYPES`, stamp `deviceId` and `lastActivity`, and for
each type add the room to the connection's subscription set and
`socket.join` it; acknowledge with `{deviceId, deviceTypes}`. -/
def handleSubscribe (now : ℤ) (sid : String) (deviceId : String)
    (deviceTypes? : Option (List String)) (st : BridgeState) :
    BridgeState × Option (String × List String) :=
  match lookupConn sid st with
  | none => (st, none)
  | some _ =>
    let deviceTypes := deviceTypes?.getD DEVICE_TYPES
    let rooms := deviceTypes.map (mkRoom deviceId)
    ({ activeConnections :=
        st.activeConnections.map (fun c =>
          if c.id = sid then
            { c with
              deviceId := some deviceId
              lastActivity := now
              subscriptions := rooms.foldl addIfAbsent c.subscriptions }
          else c)
       socketRooms :=
         rooms.foldl (fun acc r => addIfAbsent acc (sid, r)) st.socketRooms },
     some (deviceId, deviceTypes))

/-- Disconnect handling (server.ts lines 137-140 and 226-229): the registry
entry goes, and — for websockets — socket.io drops the dead socket from all
its rooms. -/
def stepDisconnect (sid : String) (st : BridgeState) : BridgeState :=
  { activeConnections := st.activeConnections.filter (fun c => c.id ≠ sid)
    socketRooms := st.socketRooms.filter (fun p => p.1 ≠ sid) }

/-- The stale-connection reaper (server.ts lines 85-95): delete every
registry entry idle strictly longer than `staleThreshold`. It touches only
`activeConnections`; room membership is not cleaned up. -/
def stepReap (now : ℤ) (st : BridgeState) : BridgeState :=
  { st with
    activeConnections :=
      st.activeConnections.filter
        (fun c => !decide (now - c.lastActivity > staleThreshold)) }

/-- Topic splitting inside the bridge's `eachMessage` (server.ts
lines 266-270): any topic with at least 3 dot segments is forwarded, room
`device_<parts[1]>_<parts[2]>`; there is no namespace or known-type check
here. -/
def bridgeTopicRoom (topic : String) : Option String :=
  match jsSplitDot topic with
  | _ :: dev :: ty :: _ => some (mkRoom dev ty)
  | _ => none

/-- Who one bridge fan-out reached: the socket ids behind
`io.to(room).emit('sensor_data', ...)` and the connection ids written an
SSE frame. -/
structure FanOut where
  wsTargets : List String
  sseTargets : List String
  deriving DecidableEq, Repr

/-- The bridge consumer's `eachMessage` fan-out (server.ts lines 252-317)
for an already-parsed payload: if the topic has at least 3 segments, emit to
the room (every socket the socket.io server has in that room), refresh
`lastActivity` of websocket registry entries subscribed to the room, then
write the frame to every connection whose id starts with `sse_`, refreshing
its `lastActivity`. SSE writes are modelled as succeeding (the catch that
drops a broken SSE connection is untaken). -/
def deliverMessage (now : ℤ) (topic : String) (st : BridgeState) :
    BridgeState × FanOut :=
  match bridgeTopicRoom topic with
  | none => (st, ⟨[], []⟩)
  | some room =>
    let wsTargets := (st.socketRooms.filter (fun p => p.2 == room)).map (fun p => p.1)
    let reg1 := st.activeConnections.map (fun c =>
      if c.type = TransportKind.websocket ∧ room ∈ c.subscriptions then
        { c with lastActivity := now }
      else c)
    let sseTargets :=
      (reg1.filter (fun c => "sse_".data.isPrefixOf c.id.data)).map (fun c => c.id)
    let reg2 := reg1.map (fun c =>
      if "sse_".data.isPrefixOf c.id.data then { c with lastActivity := now } else c)
    ({ st with activeConnections := reg2 }, ⟨wsTargets, sseTargets⟩)

/-- The bridge's externally driven events, in the order they fired. -/
inductive BridgeOp where
  | wsConnect (now : ℤ) (sid : String)
  | sseConnect (now : ℤ) (suffix : String)
  | subscribe (now : ℤ) (sid : String) (deviceId : String)
      (deviceTypes? : Option (List String))
  | message (now : ℤ) (topic : String)
  | disconnect (sid : String)
  | reap (now : ℤ)
  deriving DecidableEq, Repr

/-- One bridge event's effect on the state. -/
def bridgeStep (st : BridgeState) : BridgeOp → BridgeState
  | .wsConnect now sid => stepWsConnect now sid st
  | .sseConnect now sfx => stepSseConnect now sfx st
  | .subscribe now sid dev dts => (handleSubscribe now sid dev dts st).1
  | .message now topic => (deliverMessage now topic st).1
  | .disconnect sid => stepDisconnect sid st
  | .reap now => stepReap now st

/-- Run a sequence of bridge events from a state. -/
def runBridge (st : BridgeState) (ops : List BridgeOp) : BridgeState :=
  ops.foldl bridgeStep st

/-- Whether this event is a `subscribe` by connection `id` whose resolved
device-type list covers `room`. -/
def opSubscribesRoom (id room : String) : BridgeOp → Bool
  | .subscribe _ sid dev dts =>
    sid == id && decide (room ∈ (dts.getD DEVICE_TYPES).map (mkRoom dev))
  | _ => false

/-- Whether this event can (re)introduce a registry entry with this id. -/
def opAddsConn (id : String) : BridgeOp → Bool
  | .wsConnect _ sid => sid == id
  | .sseConnect _ sfx => ("sse_" ++ sfx) == id
  | _ => false

/-! ## Concrete sample inputs used by counterexamples and witnesses -/

/-- A fixed ambient environment: `Date.now() = 1000000000` ms, a fixed
generated message id. -/
def sampleEnv : ValidationEnv := ⟨1000000000, "msg_gen"⟩

/-- The heart-rate validation rules (range 30-220 bpm). -/
def heartRateRules : ValidationRules := ⟨30, 220, "bpm"⟩

/-- The literal payload of end-to-end scenario B:
`{value:250, unitName:"bpm"}` and nothing else. -/
def heartRate250Payload : RawData :=
  { value := .num 250, unitName := .str "bpm" }

/-- An out-of-range heart-rate reading that is otherwise complete and fresh
(value 250, timestamp matching `sampleEnv.now`, deviceId/bikeId/metadata
present): quality score 60, invalid. -/
def invalidAcceptableReading : RawData :=
  { value := .num 250, unitName := .str "bpm", timestamp := some 1000000,
    deviceId := .str "d1", bikeId := .str "b1", metadata := .object }

/-- A fully valid, complete, fresh heart-rate reading (value 75). -/
def validReading : RawData :=
  { value := .num 75, unitName := .str "bpm", timestamp := some 1000000,
    deviceId := .str "d1", bikeId := .str "b1", metadata := .object }

/-- A complete fresh reading missing only `metadata`. -/
def readingMissingMetadata : RawData :=
  { value := .num 75, unitName := .str "bpm", timestamp := some 1000000,
    deviceId := .str "d1", bikeId := .str "b1" }

/-- A save oracle on which every attempt succeeds. -/
def alwaysSaveOk : ℕ → Bool := fun _ => false

/-- A save oracle on which every attempt throws. -/
def alwaysSaveFails : ℕ → Bool := fun _ => true

/-- A jitter oracle drawing 0 every time. -/
def zeroJitter : ℕ → ℚ := fun _ => 0

/-- A bridge history for the reaper counterexample: a websocket client
connects and subscribes at time 0, then a reap sweep runs at time 400000 ms
(well past the 300000 ms idle threshold). -/
def reaperTrace : List BridgeOp :=
  [.wsConnect 0 "s1", .subscribe 0 "s1" "000001" none, .reap 400000]

/-- A bridge history for witnesses: a websocket client subscribes to
heart rate only, and an SSE client connects. -/
def sampleBridgeTrace : List BridgeOp :=
  [.wsConnect 0 "s1", .subscribe 0 "s1" "000001" (some ["heartrate"]),
   .sseConnect 0 "17"]

/-- A reading with its three optional completeness fields filled with
truthy values, all other fields untouched. -/
def withAllCompletenessFields (d : RawData) : RawData :=
  { d with deviceId := .str "x", bikeId := .str "x", metadata := .object }

/-!
## Theorems

General lemmas first, then one theorem (plus counterexample and witness
where applicable) per specification claim.
-/

/-- Unfolding of `eachMessage` on a parsed payload of a recognized data
topic. -/
theorem eachMessage_parsed (env : ValidationEnv) (fails : ℕ → Bool)
    (jitter : ℕ → ℚ) (topic : String) (raw : RawInput) (ti : TopicInfo)
    (hp : parseEnhancedKafkaTopic topic = some ti)
    (hc : ti.isControlTopic = false) :
    eachMessage env fails jitter topic (.parsed raw) =
      (if (validateEnhancedKafkaDeviceData env raw ti.deviceConfig).isValid then
        persistPhase fails jitter []
          (validateEnhancedKafkaDeviceData env raw ti.deviceConfig).data
      else if (validateEnhancedKafkaDeviceData env raw ti.deviceConfig).qualityScore < 50 then
        [.dlqOut .VALIDATION_ERROR (.validationCtx
          (validateEnhancedKafkaDeviceData env raw ti.deviceConfig).errors
          (validateEnhancedKafkaDeviceData env raw ti.deviceConfig).qualityScore)]
      else
        persistPhase fails jitter
          [.dlqOut .VALIDATION_ERROR (.validationCtx
            (validateEnhancedKafkaDeviceData env raw ti.deviceConfig).errors
            (validateEnhancedKafkaDeviceData env raw ti.deviceConfig).qualityScore)]
          (validateEnhancedKafkaDeviceData env raw ti.deviceConfig).data) := by
  simp only [eachMessage, hp, hc, if_false, Bool.false_eq_true, ite_false]

/-- The persist phase on present data appends exactly one terminal
outcome: the persist on save success, the `DATABASE_SAVE_ERROR` dead-letter
otherwise. -/
theorem persistPhase_some (fails : ℕ → Bool) (jitter : ℕ → ℚ)
    (pre : List Outcome) (d : EnhancedData) :
    persistPhase fails jitter pre (some d) =
      pre ++ [if (saveEnhancedDeviceData fails jitter 3).success then
        .persisted d else .dlqOut .DATABASE_SAVE_ERROR (.deviceDataCtx d)] := by
  simp only [persistPhase]
  split <;> rfl

/-- Any member of the persist phase's output is a prior outcome, the
persist, or the save-failure dead-letter. -/
theorem persistPhase_some_cases (fails : ℕ → Bool) (jitter : ℕ → ℚ)
    (pre : List Outcome) (d : EnhancedData) (o : Outcome)
    (h : o ∈ persistPhase fails jitter pre (some d)) :
    o ∈ pre ∨ o = .persisted d ∨
      o = .dlqOut .DATABASE_SAVE_ERROR (.deviceDataCtx d) := by
  rw [persistPhase_some] at h
  rcases List.mem_append.mp h with h | h
  · exact Or.inl h
  · right
    have h' := List.mem_singleton.mp h
    split at h'
    · exact Or.inl h'
    · exact Or.inr h'

/-- A quality score of at least 50 implies the validator returned data
(the data-less catch branch scores 0). -/
theorem validate_data_of_score (env : ValidationEnv) (raw : RawInput)
    (rules : ValidationRules)
    (h : 50 ≤ (validateEnhancedKafkaDeviceData env raw rules).qualityScore) :
    ∃ ed, (validateEnhancedKafkaDeviceData env raw rules).data = some ed := by
  cases raw with
  | obj d => exact ⟨_, rfl⟩
  | nullish => simp [validateEnhancedKafkaDeviceData] at h

/-- A valid verdict implies the validator returned data. -/
theorem validate_data_of_isValid (env : ValidationEnv) (raw : RawInput)
    (rules : ValidationRules)
    (h : (validateEnhancedKafkaDeviceData env raw rules).isValid = true) :
    ∃ ed, (validateEnhancedKafkaDeviceData env raw rules).data = some ed := by
  cases raw with
  | obj d => exact ⟨_, rfl⟩
  | nullish => simp [validateEnhancedKafkaDeviceData] at h

/-- C2, counterexample: for the message on topic `bike.000001.heartrate`
with the literal payload of the claim, value 250 and unit "bpm" and nothing
else, the validator scores 48 (the −5/−5/−2 completeness deductions also
apply), not the claimed 60, and the consumer does not persist the
reading. -/
theorem scenarioB_literal_payload_not_persisted :
    (validateEnhancedKafkaDeviceData sampleEnv (.obj heartRate250Payload)
      heartRateRules).qualityScore = 48 ∧
    (validateEnhancedKafkaDeviceData sampleEnv (.obj heartRate250Payload)
      heartRateRules).qualityScore ≠ 60 ∧
    (eachMessage sampleEnv alwaysSaveOk zeroJitter "bike.000001.heartrate"
      (.parsed (.obj heartRate250Payload))).any isPersistedOutcome = false := by
  decide

/-- C2, amended: for the message on topic `bike.000001.heartrate` with
payload value 250, unit "bpm" and no optional fields, the validator yields
quality score 48 (100 − 40 range − 5 deviceId − 5 bikeId − 2 metadata) and
`isValid` false; since 48 is below the drop threshold 50 the Consumer
Runtime discards the reading: it is dead-lettered with `VALIDATION_ERROR`
(its one terminal outcome) and never persisted. The validated data does
carry `anomalyDetected` true (48 < 70). -/
theorem scenarioB_literal_payload_outcome :
    (validateEnhancedKafkaDeviceData sampleEnv (.obj heartRate250Payload)
      heartRateRules).qualityScore = 48 ∧
    (validateEnhancedKafkaDeviceData sampleEnv (.obj heartRate250Payload)
      heartRateRules).isValid = false ∧
    ((validateEnhancedKafkaDeviceData sampleEnv (.obj heartRate250Payload)
      heartRateRules).data.map (fun d => d.anomalyDetected)) = some true ∧
    (eachMessage sampleEnv alwaysSaveOk zeroJitter "bike.000001.heartrate"
      (.parsed (.obj heartRate250Payload))).countP isValidationDlq = 1 ∧
    (eachMessage sampleEnv alwaysSaveOk zeroJitter "bike.000001.heartrate"
      (.parsed (.obj heartRate250Payload))).countP isTerminalOutcome = 1 ∧
    (eachMessage sampleEnv alwaysSaveOk zeroJitter "bike.000001.heartrate"
      (.parsed (.obj heartRate250Payload))).any isPersistedOutcome = false := by
  decide

/-- C3, counterexample: a reading missing only `metadata` scores 98 where
the claimed uniform −5 deduction would give 95; the same reading with
metadata present scores 100, so the metadata deduction is exactly 2. -/
theorem missingMetadataDeductsTwo :
    (validateEnhancedKafkaDeviceData sampleEnv (.obj readingMissingMetadata)
      heartRateRules).qualityScore = 98 ∧
    (validateEnhancedKafkaDeviceData sampleEnv (.obj validReading)
      heartRateRules).qualityScore = 100 := by
  decide

/-- C3, amended: relative to the same reading with all completeness fields
present, a missing `deviceId` deducts exactly 5 points, a missing `bikeId`
exactly 5, and a missing `metadata` exactly 2, and none of the three
deductions changes the validation error list (which is also exactly what
the validator returns as `errors`). -/
theorem completenessDeductions (env : ValidationEnv) (rules : ValidationRules)
    (d : RawData) :
    rawQualityScore env d rules =
      rawQualityScore env (withAllCompletenessFields d) rules
      - (if d.deviceId.truthy then 0 else 5)
      - (if d.bikeId.truthy then 0 else 5)
      - (if d.metadata.truthy then 0 else 2) ∧
    validationErrors env d rules =
      validationErrors env (withAllCompletenessFields d) rules ∧
    (validateEnhancedKafkaDeviceData env (.obj d) rules).errors =
      validationErrors env d rules := by
  refine ⟨?_, rfl, rfl⟩
  have h1 : valueFieldBad (withAllCompletenessFields d) = valueFieldBad d := rfl
  have h2 : unitNameBad (withAllCompletenessFields d) = unitNameBad d := rfl
  have h3 : valueOutOfRange (withAllCompletenessFields d) rules =
      valueOutOfRange d rules := rfl
  have h4 : unitMismatch (withAllCompletenessFields d) rules =
      unitMismatch d rules := rfl
  have h5 : timestampStale env (withAllCompletenessFields d) =
      timestampStale env d := rfl
  have e1 : (withAllCompletenessFields d).deviceId.truthy = true := rfl
  have e2 : (withAllCompletenessFields d).bikeId.truthy = true := rfl
  have e3 : (withAllCompletenessFields d).metadata.truthy = true := rfl
  simp only [rawQualityScore, h1, h2, h3, h4, h5, e1, e2, e3, if_true]
  ring

/-- C6: for every reading the validator returns data for,
`anomalyDetected` holds exactly when the stored quality score is below the
anomaly threshold 70; and — independently of the drop threshold 50 — a
reading scoring in [50, 70) is flagged anomalous yet still persisted by the
consumer (save succeeding). -/
theorem anomalyThreshold :
    (∀ (env : ValidationEnv) (input : RawInput) (rules : ValidationRules)
      (ed : EnhancedData),
      (validateEnhancedKafkaDeviceData env input rules).data = some ed →
      (ed.anomalyDetected = true ↔ ed.qualityScore < 70)) ∧
    (∀ (env : ValidationEnv) (jitter : ℕ → ℚ) (topic : String)
      (raw : RawInput) (ti : TopicInfo),
      parseEnhancedKafkaTopic topic = some ti →
      ti.isControlTopic = false →
      50 ≤ (validateEnhancedKafkaDeviceData env raw ti.deviceConfig).qualityScore →
      (validateEnhancedKafkaDeviceData env raw ti.deviceConfig).qualityScore < 70 →
      ∃ ed, (validateEnhancedKafkaDeviceData env raw ti.deviceConfig).data = some ed ∧
        ed.anomalyDetected = true ∧
        Outcome.persisted ed ∈
          eachMessage env alwaysSaveOk jitter topic (.parsed raw)) := by
  constructor
  · intro env input rules ed h
    cases input with
    | nullish => simp [validateEnhancedKafkaDeviceData] at h
    | obj d =>
      simp only [validateEnhancedKafkaDeviceData, Option.some.injEq] at h
      subst h
      simp only [decide_eq_true_eq]
      omega
  · intro env jitter topic raw ti hp hc h50 h70
    obtain ⟨ed, hed⟩ := validate_data_of_score env raw ti.deviceConfig h50
    refine ⟨ed, hed, ?_, ?_⟩
    · cases raw with
      | nullish => simp [validateEnhancedKafkaDeviceData] at hed
      | obj d =>
        simp only [validateEnhancedKafkaDeviceData, Option.some.injEq] at hed
        subst hed
        simp only [validateEnhancedKafkaDeviceData] at h70
        simp only [decide_eq_true_eq]
        omega
    · rw [eachMessage_parsed env alwaysSaveOk jitter topic raw ti hp hc]
      have hsv : (saveEnhancedDeviceData alwaysSaveOk jitter 3).success = true := rfl
      split
      · rw [hed, persistPhase_some, hsv]
        simp
      · split
        · omega
        · rw [hed, persistPhase_some, hsv]
          simp

/-- C7: topic parsing is a pure function taking `bike.000001.heartrate` to
device "000001", heart rate, non-control; it rejects a topic exactly when
it has fewer than 3 dot segments, its first segment is not "bike", or its
third segment is outside the known sensor-type set, which is exactly the
seven types. -/
theorem topicParsing :
    parseEnhancedKafkaTopic "bike.000001.heartrate" =
      some ⟨"000001", .heartRate, ⟨30, 220, "bpm"⟩, false⟩ ∧
    (∀ topic, parseEnhancedKafkaTopic topic = none ↔
      ((jsSplitDot topic).length < 3 ∨ (jsSplitDot topic).headD "" ≠ "bike" ∨
        ENHANCED_DEVICE_TYPE_MAP ((jsSplitDot topic).getD 2 "") = none)) ∧
    (∀ s, (ENHANCED_DEVICE_TYPE_MAP s).isSome = true ↔
      s ∈ ["heartrate", "cadence", "speed", "power", "resistance", "incline",
           "fan"]) := by
  refine ⟨by decide, ?_, ?_⟩
  · intro topic
    rcases h : jsSplitDot topic with _ | ⟨ns, _ | ⟨dev, _ | ⟨ty, rest⟩⟩⟩ <;>
      simp [parseEnhancedKafkaTopic, h]
    by_cases hns : ns = "bike"
    · subst hns
      cases hm : ENHANCED_DEVICE_TYPE_MAP ty <;> simp [hm]
    · simp [hns]
  · intro s
    constructor
    · intro h
      unfold ENHANCED_DEVICE_TYPE_MAP at h
      split at h <;> simp_all
    · intro hs
      simp only [List.mem_cons, List.mem_singleton] at hs
      rcases hs with rfl | rfl | rfl | rfl | rfl | rfl | rfl | h
      all_goals first | rfl | simp_all

/-- C10: whenever the validator returns without data (its catch branch),
the returned quality score is 0 and the verdict invalid — 0 being below the
drop threshold 50 — and consequently the consumer's non-null assertion
`validationResult.data!` never dereferences an absent value: no run of
`eachMessage` reaches the dereference-failure outcome. -/
theorem nonNullAssertionSafe :
    (∀ (env : ValidationEnv) (input : RawInput) (rules : ValidationRules),
      (validateEnhancedKafkaDeviceData env input rules).data = none →
      (validateEnhancedKafkaDeviceData env input rules).qualityScore = 0 ∧
      (validateEnhancedKafkaDeviceData env input rules).isValid = false) ∧
    (∀ (env : ValidationEnv) (fails : ℕ → Bool) (jitter : ℕ → ℚ)
      (topic : String) (v : MsgValue),
      Outcome.derefCrash ∉ eachMessage env fails jitter topic v) := by
  constructor
  · intro env input rules h
    cases input with
    | obj d => simp [validateEnhancedKafkaDeviceData] at h
    | nullish => exact ⟨rfl, rfl⟩
  · intro env fails jitter topic v
    cases v with
    | absent => simp [eachMessage]
    | malformed s =>
      simp only [eachMessage]
      cases hp : parseEnhancedKafkaTopic topic
      · simp
      · split <;> simp
    | parsed raw =>
      cases hp : parseEnhancedKafkaTopic topic with
      | none => simp [eachMessage, hp]
      | some ti =>
        by_cases hctl : ti.isControlTopic = true
        · simp [eachMessage, hp, hctl]
        · rw [eachMessage_parsed env fails jitter topic raw ti hp
            (Bool.not_eq_true _ ▸ hctl)]
          split
          · obtain ⟨ed, hd⟩ :=
              validate_data_of_isValid env raw ti.deviceConfig (by assumption)
            rw [hd]
            intro hmem
            rcases persistPhase_some_cases _ _ _ _ _ hmem with h | h | h <;>
              simp_all
          · split
            · simp
            · obtain ⟨ed, hd⟩ :=
                validate_data_of_score env raw ti.deviceConfig (by omega)
              rw [hd]
              intro hmem
              rcases persistPhase_some_cases _ _ _ _ _ hmem with h | h | h <;>
                simp_all

/-- C5: when every persistence attempt fails, `saveEnhancedDeviceData`
makes exactly `maxRetries = 3` attempts (the consumer's default), the
inter-attempt delays are exactly `2 ^ attempt * 1000` ms plus that
attempt's jitter — hence within `[2^attempt * 1000, 2^attempt * 1000 + 1000)`
given jitter in [0, 1000) — the expected backoff is non-decreasing in the
attempt number, and for any reading the consumer tried to persist, the
final outcome is a `DATABASE_SAVE_ERROR` dead-letter carrying the full
validated reading as context, never a persisted record. -/
theorem retryExhaustion (fails : ℕ → Bool) (jitter : ℕ → ℚ)
    (env : ValidationEnv) (topic : String) (raw : RawInput) (ti : TopicInfo)
    (hf : ∀ i, fails i = true)
    (hj : ∀ i, 0 ≤ jitter i ∧ jitter i < 1000)
    (hp : parseEnhancedKafkaTopic topic = some ti)
    (hc : ti.isControlTopic = false)
    (hv : (validateEnhancedKafkaDeviceData env raw ti.deviceConfig).isValid = true ∨
      50 ≤ (validateEnhancedKafkaDeviceData env raw ti.deviceConfig).qualityScore) :
    (saveEnhancedDeviceData fails jitter 3).attempts = 3 ∧
    (saveEnhancedDeviceData fails jitter 3).success = false ∧
    (saveEnhancedDeviceData fails jitter 3).delays =
      [(2 : ℚ) ^ 1 * 1000 + jitter 1, (2 : ℚ) ^ 2 * 1000 + jitter 2] ∧
    (∀ dly ∈ (saveEnhancedDeviceData fails jitter 3).delays,
      (2 : ℚ) ^ 1 * 1000 ≤ dly ∧ dly < (2 : ℚ) ^ 2 * 1000 + 1000) ∧
    (∀ a, expectedBackoffDelay a ≤ expectedBackoffDelay (a + 1)) ∧
    (∃ d, (validateEnhancedKafkaDeviceData env raw ti.deviceConfig).data = some d ∧
      Outcome.dlqOut .DATABASE_SAVE_ERROR (.deviceDataCtx d) ∈
        eachMessage env fails jitter topic (.parsed raw)) ∧
    (∀ e, Outcome.persisted e ∉ eachMessage env fails jitter topic (.parsed raw)) := by
  have htr : saveEnhancedDeviceData fails jitter 3 =
      ⟨3, [(2 : ℚ) ^ 1 * 1000 + jitter 1, (2 : ℚ) ^ 2 * 1000 + jitter 2], false⟩ := by
    simp [saveEnhancedDeviceData, List.range', saveAttemptLoop, hf]
  have hsf : (saveEnhancedDeviceData fails jitter 3).success = false := by
    rw [htr]
  refine ⟨by rw [htr], hsf, by rw [htr], ?_, ?_, ?_, ?_⟩
  · rw [htr]
    intro dly hdly
    obtain ⟨hj1a, hj1b⟩ := hj 1
    obtain ⟨hj2a, hj2b⟩ := hj 2
    rcases List.mem_cons.mp hdly with rfl | hdly
    · constructor <;> [linarith; nlinarith]
    · rcases List.mem_singleton.mp hdly with rfl
      constructor <;> [nlinarith; nlinarith]
  · intro a
    have h2 : (2 : ℚ) ^ a ≤ (2 : ℚ) ^ (a + 1) :=
      pow_le_pow_right₀ (by norm_num) (Nat.le_succ a)
    simp only [expectedBackoffDelay]
    linarith
  · have hd : ∃ d, (validateEnhancedKafkaDeviceData env raw ti.deviceConfig).data = some d := by
      rcases hv with hv | hv
      · exact validate_data_of_isValid env raw ti.deviceConfig hv
      · exact validate_data_of_score env raw ti.deviceConfig hv
    obtain ⟨d, hd⟩ := hd
    refine ⟨d, hd, ?_⟩
    rw [eachMessage_parsed env fails jitter topic raw ti hp hc]
    by_cases hvv : (validateEnhancedKafkaDeviceData env raw ti.deviceConfig).isValid = true
    · rw [if_pos hvv, hd, persistPhase_some, hsf]
      simp
    · have h50 : 50 ≤ (validateEnhancedKafkaDeviceData env raw ti.deviceConfig).qualityScore := by
        rcases hv with hv | hv
        · exact absurd hv hvv
        · exact hv
      rw [if_neg hvv, if_neg (by omega), hd, persistPhase_some, hsf]
      simp
  · intro e
    rw [eachMessage_parsed env fails jitter topic raw ti hp hc]
    split
    · obtain ⟨d, hd⟩ :=
        validate_data_of_isValid env raw ti.deviceConfig (by assumption)
      rw [hd, persistPhase_some, hsf]
      simp
    · split
      · simp
      · obtain ⟨d, hd⟩ :=
          validate_data_of_score env raw ti.deviceConfig (by omega)
        rw [hd, persistPhase_some, hsf]
        simp

/-- C5 witness: the retry-exhaustion theorem applied at a concrete
always-failing save, zero jitter, and a valid heart-rate reading. -/
theorem retryExhaustion_witness :
    (saveEnhancedDeviceData alwaysSaveFails zeroJitter 3).attempts = 3 ∧
    (saveEnhancedDeviceData alwaysSaveFails zeroJitter 3).success = false ∧
    (saveEnhancedDeviceData alwaysSaveFails zeroJitter 3).delays =
      [(2 : ℚ) ^ 1 * 1000 + zeroJitter 1, (2 : ℚ) ^ 2 * 1000 + zeroJitter 2] ∧
    (∀ dly ∈ (saveEnhancedDeviceData alwaysSaveFails zeroJitter 3).delays,
      (2 : ℚ) ^ 1 * 1000 ≤ dly ∧ dly < (2 : ℚ) ^ 2 * 1000 + 1000) ∧
    (∀ a, expectedBackoffDelay a ≤ expectedBackoffDelay (a + 1)) ∧
    (∃ d, (validateEnhancedKafkaDeviceData sampleEnv (.obj validReading)
        (TopicInfo.deviceConfig ⟨"000001", .heartRate, ⟨30, 220, "bpm"⟩, false⟩)).data = some d ∧
      Outcome.dlqOut .DATABASE_SAVE_ERROR (.deviceDataCtx d) ∈
        eachMessage sampleEnv alwaysSaveFails zeroJitter "bike.000001.heartrate"
          (.parsed (.obj validReading))) ∧
    (∀ e, Outcome.persisted e ∉
      eachMessage sampleEnv alwaysSaveFails zeroJitter "bike.000001.heartrate"
        (.parsed (.obj validReading))) :=
  retryExhaustion alwaysSaveFails zeroJitter sampleEnv "bike.000001.heartrate"
    (.obj validReading) ⟨"000001", .heartRate, ⟨30, 220, "bpm"⟩, false⟩
    (fun _ => rfl) (fun _ => by constructor <;> norm_num [zeroJitter])
    (by decide) rfl (Or.inl (by decide))

/-- C1, counterexample: the invalid-but-acceptable reading (out of range,
quality 60) reaches two terminal outcomes in one consumer pass — it is
dead-lettered with `VALIDATION_ERROR` and then also persisted — refuting
"exactly one terminal outcome, never both" and "proceeds to persistence
without being dead-lettered". -/
theorem invalidAcceptableReachesBothOutcomes :
    (eachMessage sampleEnv alwaysSaveOk zeroJitter "bike.000001.heartrate"
      (.parsed (.obj invalidAcceptableReading))).countP isTerminalOutcome = 2 ∧
    (eachMessage sampleEnv alwaysSaveOk zeroJitter "bike.000001.heartrate"
      (.parsed (.obj invalidAcceptableReading))).any isPersistedOutcome = true ∧
    (eachMessage sampleEnv alwaysSaveOk zeroJitter "bike.000001.heartrate"
      (.parsed (.obj invalidAcceptableReading))).any isValidationDlq = true := by
  decide

/-- C1, amended: a valid reading reaches exactly one terminal outcome and
is never dead-lettered with `VALIDATION_ERROR`; an invalid reading is
always dead-lettered with `VALIDATION_ERROR`, and when its quality score is
below the drop threshold 50 that dead-letter is its only outcome (it is
discarded, not persisted); but an invalid reading with score at least 50
additionally proceeds to persistence, reaching two terminal outcomes: the
`VALIDATION_ERROR` dead-letter plus either the persist or the
`DATABASE_SAVE_ERROR` dead-letter. -/
theorem terminalOutcomePolicy (env : ValidationEnv) (fails : ℕ → Bool)
    (jitter : ℕ → ℚ) (topic : String) (raw : RawInput) (ti : TopicInfo)
    (hp : parseEnhancedKafkaTopic topic = some ti)
    (hc : ti.isControlTopic = false) :
    ((validateEnhancedKafkaDeviceData env raw ti.deviceConfig).isValid = true →
      (eachMessage env fails jitter topic (.parsed raw)).countP
        isTerminalOutcome = 1 ∧
      (eachMessage env fails jitter topic (.parsed raw)).countP
        isValidationDlq = 0) ∧
    ((validateEnhancedKafkaDeviceData env raw ti.deviceConfig).isValid = false →
      (validateEnhancedKafkaDeviceData env raw ti.deviceConfig).qualityScore < 50 →
      eachMessage env fails jitter topic (.parsed raw) =
        [.dlqOut .VALIDATION_ERROR (.validationCtx
          (validateEnhancedKafkaDeviceData env raw ti.deviceConfig).errors
          (validateEnhancedKafkaDeviceData env raw ti.deviceConfig).qualityScore)]) ∧
    ((validateEnhancedKafkaDeviceData env raw ti.deviceConfig).isValid = false →
      50 ≤ (validateEnhancedKafkaDeviceData env raw ti.deviceConfig).qualityScore →
      (eachMessage env fails jitter topic (.parsed raw)).countP
        isValidationDlq = 1 ∧
      (eachMessage env fails jitter topic (.parsed raw)).countP
        isTerminalOutcome = 2 ∧
      ((eachMessage env fails jitter topic (.parsed raw)).any
        isPersistedOutcome = true ∨
       (eachMessage env fails jitter topic (.parsed raw)).any
        isDbSaveDlq = true)) := by
  rw [eachMessage_parsed env fails jitter topic raw ti hp hc]
  refine ⟨?_, ?_, ?_⟩
  · intro hv
    obtain ⟨d, hd⟩ := validate_data_of_isValid env raw ti.deviceConfig hv
    rw [if_pos hv, hd, persistPhase_some]
    by_cases hs : (saveEnhancedDeviceData fails jitter 3).success = true
    · rw [if_pos hs]
      constructor <;>
        simp [isTerminalOutcome, isPersistedOutcome, isDlqOutcome,
          isValidationDlq, List.countP_cons]
    · rw [if_neg hs]
      constructor <;>
        simp [isTerminalOutcome, isPersistedOutcome, isDlqOutcome,
          isValidationDlq, List.countP_cons]
  · intro hv h50
    rw [if_neg (by simp [hv]), if_pos h50]
  · intro hv h50
    obtain ⟨d, hd⟩ := validate_data_of_score env raw ti.deviceConfig h50
    rw [if_neg (by simp [hv]), if_neg (by omega), hd, persistPhase_some]
    by_cases hs : (saveEnhancedDeviceData fails jitter 3).success = true
    · rw [if_pos hs]
      refine ⟨?_, ?_, Or.inl ?_⟩ <;>
        simp [isValidationDlq, isTerminalOutcome, isPersistedOutcome,
          isDlqOutcome, isDbSaveDlq, List.countP_cons, List.countP_append]
    · rw [if_neg hs]
      refine ⟨?_, ?_, Or.inr ?_⟩ <;>
        simp [isValidationDlq, isTerminalOutcome, isPersistedOutcome,
          isDlqOutcome, isDbSaveDlq, List.countP_cons, List.countP_append]

/-- C1 witness: the outcome-policy theorem applied to the concrete
invalid-but-acceptable reading on `bike.000001.heartrate`. -/
theorem terminalOutcomePolicy_witness :
    (eachMessage sampleEnv alwaysSaveOk zeroJitter "bike.000001.heartrate"
      (.parsed (.obj invalidAcceptableReading))).countP isValidationDlq = 1 ∧
    (eachMessage sampleEnv alwaysSaveOk zeroJitter "bike.000001.heartrate"
      (.parsed (.obj invalidAcceptableReading))).countP isTerminalOutcome = 2 ∧
    ((eachMessage sampleEnv alwaysSaveOk zeroJitter "bike.000001.heartrate"
      (.parsed (.obj invalidAcceptableReading))).any isPersistedOutcome = true ∨
     (eachMessage sampleEnv alwaysSaveOk zeroJitter "bike.000001.heartrate"
      (.parsed (.obj invalidAcceptableReading))).any isDbSaveDlq = true) :=
  (terminalOutcomePolicy sampleEnv alwaysSaveOk zeroJitter
    "bike.000001.heartrate" (.obj invalidAcceptableReading)
    ⟨"000001", .heartRate, ⟨30, 220, "bpm"⟩, false⟩ (by decide) rfl).2.2
    (by decide) (by decide)



theorem mem_addIfAbsent {α : Type} [DecidableEq α] (l : List α) (x y : α) :
    y ∈ addIfAbsent l x ↔ y ∈ l ∨ y = x := by
  by_cases hx : x ∈ l <;> simp [addIfAbsent, hx]
  exact fun h => h ▸ hx

theorem mem_foldl_addIfAbsent {α : Type} [DecidableEq α] (l : List α)
    (init : List α) (y : α) :
    y ∈ l.foldl addIfAbsent init ↔ y ∈ init ∨ y ∈ l := by
  induction l generalizing init with
  | nil => simp
  | cons a l ih =>
    simp only [List.foldl_cons, ih, mem_addIfAbsent, List.mem_cons]
    tauto

theorem mem_foldl_addIfAbsent_pair (rooms : List String)
    (init : List (String × String)) (sid : String) (p : String × String) :
    p ∈ rooms.foldl (fun acc r => addIfAbsent acc (sid, r)) init ↔
      p ∈ init ∨ ∃ r ∈ rooms, p = (sid, r) := by
  induction rooms generalizing init with
  | nil => simp
  | cons a rooms ih =>
    simp only [List.foldl_cons, ih, mem_addIfAbsent, List.mem_cons]
    constructor
    · rintro (⟨h | h⟩ | ⟨r, hr, rfl⟩)
      · exact Or.inl h
      · exact Or.inr ⟨a, Or.inl rfl, h⟩
      · exact Or.inr ⟨r, Or.inr hr, rfl⟩
    · rintro (h | ⟨r, hr | hr, rfl⟩)
      · exact Or.inl (Or.inl h)
      · exact Or.inl (Or.inr (hr ▸ rfl))
      · exact Or.inr ⟨r, hr, rfl⟩

/-- The websocket-activity refresh of a fan-out keeps id, transport kind
and subscriptions. -/
theorem deliverWsRefresh_pres (now : ℤ) (room : String) (c : ConnectionInfo) :
    ((if c.type = TransportKind.websocket ∧ room ∈ c.subscriptions then
      { c with lastActivity := now } else c) : ConnectionInfo).id = c.id ∧
    ((if c.type = TransportKind.websocket ∧ room ∈ c.subscriptions then
      { c with lastActivity := now } else c) : ConnectionInfo).type = c.type ∧
    ((if c.type = TransportKind.websocket ∧ room ∈ c.subscriptions then
      { c with lastActivity := now } else c) : ConnectionInfo).subscriptions =
      c.subscriptions := by
  split <;> exact ⟨rfl, rfl, rfl⟩

/-- The SSE-activity refresh of a fan-out keeps id, transport kind and
subscriptions. -/
theorem deliverSseRefresh_pres (now : ℤ) (c : ConnectionInfo) :
    ((if "sse_".data.isPrefixOf c.id.data then
      { c with lastActivity := now } else c) : ConnectionInfo).id = c.id ∧
    ((if "sse_".data.isPrefixOf c.id.data then
      { c with lastActivity := now } else c) : ConnectionInfo).type = c.type ∧
    ((if "sse_".data.isPrefixOf c.id.data then
      { c with lastActivity := now } else c) : ConnectionInfo).subscriptions =
      c.subscriptions := by
  split <;> exact ⟨rfl, rfl, rfl⟩

/-- Invariant: every room in a registered connection's subscription set is
also a socket.io room membership of that connection. -/
def subsJoined (st : BridgeState) : Prop :=
  ∀ c ∈ st.activeConnections, ∀ r ∈ c.subscriptions,
    (c.id, r) ∈ st.socketRooms

theorem subsJoined_step (st : BridgeState) (op : BridgeOp)
    (h : subsJoined st) : subsJoined (bridgeStep st op) := by
  cases op with
  | wsConnect now sid =>
    intro c hc r hr
    rcases List.mem_cons.mp hc with rfl | hc
    · simp at hr
    · obtain ⟨hc', hne⟩ := List.mem_filter.mp hc
      refine List.mem_filter.mpr ⟨h c hc' r hr, ?_⟩
      simpa using hne
  | sseConnect now sfx =>
    intro c hc r hr
    rcases List.mem_cons.mp hc with rfl | hc
    · simp at hr
    · exact h c (List.mem_filter.mp hc).1 r hr
  | subscribe now sid dev dts =>
    simp only [bridgeStep, handleSubscribe]
    cases hl : lookupConn sid st with
    | none => exact h
    | some c0 =>
      intro c hc r hr
      simp only at hc
      obtain ⟨c1, hc1, rfl⟩ := List.mem_map.mp hc
      simp only [mem_foldl_addIfAbsent_pair]
      by_cases hid : c1.id = sid
      · rw [if_pos hid] at hr ⊢
        simp only [mem_foldl_addIfAbsent] at hr
        rcases hr with hr | hr
        · exact Or.inl (by simpa [hid] using h c1 hc1 r hr)
        · exact Or.inr ⟨r, hr, by simp [hid]⟩
      · rw [if_neg hid] at hr ⊢
        exact Or.inl (h c1 hc1 r hr)
  | message now topic =>
    simp only [bridgeStep, deliverMessage]
    cases hroom : bridgeTopicRoom topic with
    | none => exact h
    | some room =>
      intro c hc r hr
      simp only at hc
      obtain ⟨c1, hc1, rfl⟩ := List.mem_map.mp hc
      obtain ⟨c2, hc2, rfl⟩ := List.mem_map.mp hc1
      have e2 := deliverWsRefresh_pres now room c2
      have e1 := deliverSseRefresh_pres now
        (if c2.type = TransportKind.websocket ∧ room ∈ c2.subscriptions then
          { c2 with lastActivity := now } else c2)
      rw [e1.1, e2.1]
      rw [e1.2.2, e2.2.2] at hr
      exact h c2 hc2 r hr
  | disconnect sid =>
    intro c hc r hr
    obtain ⟨hc', hne⟩ := List.mem_filter.mp hc
    refine List.mem_filter.mpr ⟨h c hc' r hr, ?_⟩
    simpa using hne
  | reap now =>
    intro c hc r hr
    exact h c (List.mem_filter.mp hc).1 r hr



theorem subsJoined_run (ops : List BridgeOp) :
    subsJoined (runBridge initBridgeState ops) := by
  suffices h : ∀ st, subsJoined st → subsJoined (runBridge st ops) by
    refine h initBridgeState ?_
    intro c hc
    simp [initBridgeState] at hc
  induction ops with
  | nil => exact fun st h => h
  | cons op rest ih =>
    intro st h
    exact ih (bridgeStep st op) (subsJoined_step st op h)

/-- Every socket.io room membership originates in some `subscribe` event of
the history that covers that room. -/
theorem socketRooms_from_subscribe (ops : List BridgeOp) (st : BridgeState)
    (sid r : String)
    (h : (sid, r) ∈ (runBridge st ops).socketRooms) :
    (sid, r) ∈ st.socketRooms ∨ ops.any (opSubscribesRoom sid r) = true := by
  induction ops generalizing st with
  | nil => exact Or.inl h
  | cons op rest ih =>
    rcases ih (bridgeStep st op) h with h' | h'
    · cases op with
      | wsConnect now sid' =>
        exact Or.inl (List.mem_filter.mp h').1
      | sseConnect now sfx => exact Or.inl h'
      | subscribe now sid' dev dts =>
        simp only [bridgeStep, handleSubscribe] at h'
        cases hl : lookupConn sid' st with
        | none =>
          rw [hl] at h'
          exact Or.inl h'
        | some c0 =>
          rw [hl] at h'
          simp only [mem_foldl_addIfAbsent_pair] at h'
          rcases h' with h' | ⟨room', hroom', heq⟩
          · exact Or.inl h'
          · right
            obtain ⟨h1, h2⟩ := Prod.ext_iff.mp heq
            subst h1
            subst h2
            simp [opSubscribesRoom, hroom']
      | message now topic =>
        simp only [bridgeStep, deliverMessage] at h'
        cases hroom : bridgeTopicRoom topic with
        | none =>
          rw [hroom] at h'
          exact Or.inl h'
        | some room =>
          rw [hroom] at h'
          exact Or.inl h'
      | disconnect sid' =>
        exact Or.inl (List.mem_filter.mp h').1
      | reap now => exact Or.inl h'
    · right
      simp only [List.any_cons, Bool.or_eq_true]
      exact Or.inr h'



/-- Membership in a fan-out's websocket targets is exactly socket.io room
membership. -/
theorem mem_wsTargets (st : BridgeState) (now : ℤ) (topic room : String)
    (hr : bridgeTopicRoom topic = some room) (id : String) :
    id ∈ ((deliverMessage now topic st).2).wsTargets ↔
      (id, room) ∈ st.socketRooms := by
  simp only [deliverMessage, hr]
  constructor
  · intro h
    obtain ⟨p, hp, rfl⟩ := List.mem_map.mp h
    obtain ⟨hp', he⟩ := List.mem_filter.mp hp
    have : p.2 = room := by simpa using he
    simpa [← this] using hp'
  · intro h
    exact List.mem_map.mpr ⟨(id, room),
      List.mem_filter.mpr ⟨h, by simp⟩, rfl⟩

/-- Every registered connection whose id bears the SSE marker is a target
of every fan-out. -/
theorem mem_sseTargets (st : BridgeState) (now : ℤ) (topic room : String)
    (hr : bridgeTopicRoom topic = some room) (c : ConnectionInfo)
    (hc : c ∈ st.activeConnections)
    (hsse : "sse_".data.isPrefixOf c.id.data = true) :
    c.id ∈ ((deliverMessage now topic st).2).sseTargets := by
  simp only [deliverMessage, hr]
  have e2 := deliverWsRefresh_pres now room c
  refine List.mem_map.mpr ⟨_, List.mem_filter.mpr
    ⟨List.mem_map.mpr ⟨c, hc, rfl⟩, ?_⟩, e2.1⟩
  rw [e2.1]
  exact hsse

/-- C8: in any bridge history, a message routed to a room is delivered to
every registered websocket connection currently subscribed to that room and
to no websocket connection that never subscribed to it, while every
registered SSE connection receives it regardless of subscriptions. -/
theorem fanOutDeliveryCorrectness (ops : List BridgeOp) (topic room : String)
    (now : ℤ) (hr : bridgeTopicRoom topic = some room) :
    (∀ c ∈ (runBridge initBridgeState ops).activeConnections,
      c.type = TransportKind.websocket → room ∈ c.subscriptions →
      c.id ∈ ((deliverMessage now topic
        (runBridge initBridgeState ops)).2).wsTargets) ∧
    (∀ id, id ∈ ((deliverMessage now topic
        (runBridge initBridgeState ops)).2).wsTargets →
      ops.any (opSubscribesRoom id room) = true) ∧
    (∀ c ∈ (runBridge initBridgeState ops).activeConnections,
      "sse_".data.isPrefixOf c.id.data = true →
      c.id ∈ ((deliverMessage now topic
        (runBridge initBridgeState ops)).2).sseTargets) := by
  refine ⟨?_, ?_, ?_⟩
  · intro c hc hws hsub
    rw [mem_wsTargets _ now topic room hr]
    exact subsJoined_run ops c hc room hsub
  · intro id hid
    rw [mem_wsTargets _ now topic room hr] at hid
    rcases socketRooms_from_subscribe ops initBridgeState id room hid with h | h
    · simp [initBridgeState] at h
    · exact h
  · intro c hc hsse
    exact mem_sseTargets _ now topic room hr c hc hsse

/-- C8 witness: fan-out correctness applied to a concrete history with one
subscribed websocket client and one SSE client. -/
theorem fanOutDeliveryCorrectness_witness :
    (∀ c ∈ (runBridge initBridgeState sampleBridgeTrace).activeConnections,
      c.type = TransportKind.websocket →
      "device_000001_heartrate" ∈ c.subscriptions →
      c.id ∈ ((deliverMessage 10 "bike.000001.heartrate"
        (runBridge initBridgeState sampleBridgeTrace)).2).wsTargets) ∧
    (∀ id, id ∈ ((deliverMessage 10 "bike.000001.heartrate"
        (runBridge initBridgeState sampleBridgeTrace)).2).wsTargets →
      sampleBridgeTrace.any (opSubscribesRoom id "device_000001_heartrate") = true) ∧
    (∀ c ∈ (runBridge initBridgeState sampleBridgeTrace).activeConnections,
      "sse_".data.isPrefixOf c.id.data = true →
      c.id ∈ ((deliverMessage 10 "bike.000001.heartrate"
        (runBridge initBridgeState sampleBridgeTrace)).2).sseTargets) :=
  fanOutDeliveryCorrectness sampleBridgeTrace "bike.000001.heartrate"
    "device_000001_heartrate" 10 (by decide)



/-- Looking a connection up commutes with an id-preserving per-entry map. -/
theorem find?_map_idPreserving (l : List ConnectionInfo)
    (f : ConnectionInfo → ConnectionInfo) (hid : ∀ c, (f c).id = c.id)
    (sid : String) :
    (l.map f).find? (fun c => c.id == sid) =
      ((l.find? (fun c => c.id == sid)).map f) := by
  induction l with
  | nil => rfl
  | cons a l ih =>
    simp only [List.map_cons, List.find?]
    rw [hid a]
    cases h : (a.id == sid) <;> simp [h, ih]

/-- C9: a subscribe event that omits the sensor-type list subscribes the
connection to all seven known sensor types for the given device — the
acknowledged list is exactly `DEVICE_TYPES`, and each of the seven rooms
lands in both the connection's subscription set and its socket.io room
memberships. -/
theorem defaultSubscribeAllSevenTypes (st : BridgeState) (now : ℤ)
    (sid deviceId : String) (c : ConnectionInfo)
    (h : lookupConn sid st = some c) :
    (handleSubscribe now sid deviceId none st).2 =
      some (deviceId, DEVICE_TYPES) ∧
    DEVICE_TYPES = ["heartrate", "cadence", "speed", "power", "resistance",
      "incline", "fan"] ∧
    (∀ ty ∈ DEVICE_TYPES, ∃ c',
      lookupConn sid (handleSubscribe now sid deviceId none st).1 = some c' ∧
      mkRoom deviceId ty ∈ c'.subscriptions ∧
      (sid, mkRoom deviceId ty) ∈
        (handleSubscribe now sid deviceId none st).1.socketRooms) := by
  have hcid : c.id = sid := by
    have := List.find?_some h
    simpa using this
  refine ⟨by simp [handleSubscribe, h], rfl, ?_⟩
  intro ty hty
  simp only [handleSubscribe, h, Option.getD_none]
  refine ⟨{ c with
      deviceId := some deviceId
      lastActivity := now
      subscriptions :=
        (DEVICE_TYPES.map (mkRoom deviceId)).foldl addIfAbsent
          c.subscriptions }, ?_, ?_, ?_⟩
  · show lookupConn sid _ = _
    simp only [lookupConn]
    rw [find?_map_idPreserving _ _ (fun c0 => by split <;> rfl) sid]
    rw [show st.activeConnections.find? (fun c0 => c0.id == sid) = some c
      from h]
    simp [hcid]
  · simp only [mem_foldl_addIfAbsent]
    exact Or.inr (List.mem_map.mpr ⟨ty, hty, rfl⟩)
  · simp only [mem_foldl_addIfAbsent_pair]
    exact Or.inr ⟨mkRoom deviceId ty, List.mem_map.mpr ⟨ty, hty, rfl⟩, rfl⟩

/-- C9 witness: the default-subscribe theorem applied to a freshly
connected socket "s1". -/
theorem defaultSubscribeAllSevenTypes_witness :
    (handleSubscribe 0 "s1" "000001" none
      (runBridge initBridgeState [.wsConnect 0 "s1"])).2 =
      some ("000001", DEVICE_TYPES) ∧
    DEVICE_TYPES = ["heartrate", "cadence", "speed", "power", "resistance",
      "incline", "fan"] ∧
    (∀ ty ∈ DEVICE_TYPES, ∃ c',
      lookupConn "s1" (handleSubscribe 0 "s1" "000001" none
        (runBridge initBridgeState [.wsConnect 0 "s1"])).1 = some c' ∧
      mkRoom "000001" ty ∈ c'.subscriptions ∧
      ("s1", mkRoom "000001" ty) ∈
        (handleSubscribe 0 "s1" "000001" none
          (runBridge initBridgeState [.wsConnect 0 "s1"])).1.socketRooms) :=
  defaultSubscribeAllSevenTypes
    (runBridge initBridgeState [.wsConnect 0 "s1"]) 0 "s1" "000001"
    ⟨"s1", .websocket, 0, 0, [], none⟩ (by decide)



/-- The registry ids, as the `Map` keys. -/
def registryIds (st : BridgeState) : List String :=
  st.activeConnections.map (fun c => c.id)

/-- Invariant: registry keys are unique (it models a `Map`). -/
def idsNodup (st : BridgeState) : Prop :=
  (registryIds st).Nodup

theorem ids_map_idPreserving (l : List ConnectionInfo)
    (f : ConnectionInfo → ConnectionInfo) (hid : ∀ c, (f c).id = c.id) :
    (l.map f).map (fun c => c.id) = l.map (fun c => c.id) := by
  induction l with
  | nil => rfl
  | cons a l ih => simp [hid a, ih]

theorem idsNodup_setConn (c : ConnectionInfo) (l : List ConnectionInfo)
    (h : (l.map (fun c => c.id)).Nodup) :
    ((setConn c l).map (fun c => c.id)).Nodup := by
  simp only [setConn, List.map_cons, List.nodup_cons]
  refine ⟨?_, ?_⟩
  · intro hmem
    obtain ⟨c', hc', he⟩ := List.mem_map.mp hmem
    exact absurd he (by simpa using (List.mem_filter.mp hc').2)
  · exact ((List.filter_sublist l).map (fun c => c.id)).nodup h

theorem idsNodup_step (st : BridgeState) (op : BridgeOp)
    (h : idsNodup st) : idsNodup (bridgeStep st op) := by
  cases op with
  | wsConnect now sid => exact idsNodup_setConn _ _ h
  | sseConnect now sfx => exact idsNodup_setConn _ _ h
  | subscribe now sid dev dts =>
    simp only [idsNodup, registryIds, bridgeStep, handleSubscribe]
    cases hl : lookupConn sid st with
    | none => exact h
    | some c0 =>
      rw [ids_map_idPreserving _ _ (fun c0 => by split <;> rfl)]
      exact h
  | message now topic =>
    simp only [idsNodup, registryIds, bridgeStep, deliverMessage]
    cases hroom : bridgeTopicRoom topic with
    | none => exact h
    | some room =>
      dsimp only
      rw [ids_map_idPreserving _ _ (fun c0 => by split <;> rfl)]
      rw [ids_map_idPreserving _ _ (fun c0 => by split <;> rfl)]
      exact h
  | disconnect sid =>
    simp only [idsNodup, registryIds, bridgeStep, stepDisconnect]
    exact ((List.filter_sublist _).map _).nodup h
  | reap now =>
    simp only [idsNodup, registryIds, bridgeStep, stepReap]
    exact ((List.filter_sublist _).map _).nodup h

theorem idsNodup_run (ops : List BridgeOp) :
    idsNodup (runBridge initBridgeState ops) := by
  suffices h : ∀ st, idsNodup st → idsNodup (runBridge st ops) by
    exact h initBridgeState (by simp [idsNodup, registryIds, initBridgeState])
  induction ops with
  | nil => exact fun st h => h
  | cons op rest ih => exact fun st h => ih _ (idsNodup_step st op h)

/-- A registry entry idle strictly beyond the threshold at sweep time is
gone from the registry after the sweep. -/
theorem reap_removes_stale (st : BridgeState) (now : ℤ) (id : String)
    (c : ConnectionInfo) (hnd : idsNodup st) (h : lookupConn id st = some c)
    (hstale : now - c.lastActivity > staleThreshold) :
    lookupConn id (stepReap now st) = none := by
  have hcid : c.id = id := by simpa using List.find?_some h
  have hcmem : c ∈ st.activeConnections := List.mem_of_find?_eq_some h
  rw [lookupConn, List.find?_eq_none]
  intro e he
  obtain ⟨he', hkeep⟩ := List.mem_filter.mp he
  intro heid
  have heid' : e.id = id := by simpa using heid
  have : e = c := by
    have hnd' : (st.activeConnections.map (fun c => c.id)).Nodup := hnd
    have hinj := List.inj_on_of_nodup_map hnd'
    exact hinj he' hcmem (heid'.trans hcid.symm)
  subst this
  simp only [Bool.not_eq_true', decide_eq_false_iff_not, not_lt] at hkeep
  omega

/-- A connection id absent from the registry stays absent across any
history that never reconnects it. -/
theorem lookup_none_run (ops : List BridgeOp) (st : BridgeState) (id : String)
    (h : lookupConn id st = none)
    (hops : ops.all (fun op => !opAddsConn id op) = true) :
    lookupConn id (runBridge st ops) = none := by
  induction ops generalizing st with
  | nil => exact h
  | cons op rest ih =>
    simp only [List.all_cons, Bool.and_eq_true] at hops
    refine ih (bridgeStep st op) ?_ hops.2
    have hnot := hops.1
    cases op with
    | wsConnect now sid =>
      simp only [opAddsConn, Bool.not_eq_eq_eq_not, Bool.not_true,
        beq_eq_false_iff_ne, ne_eq] at hnot
      rw [lookupConn, List.find?_eq_none]
      intro e he
      rcases List.mem_cons.mp he with rfl | he
      · simpa using hnot
      · rw [lookupConn, List.find?_eq_none] at h
        exact h e (List.mem_filter.mp he).1
    | sseConnect now sfx =>
      simp only [opAddsConn, Bool.not_eq_eq_eq_not, Bool.not_true,
        beq_eq_false_iff_ne, ne_eq] at hnot
      rw [lookupConn, List.find?_eq_none]
      intro e he
      rcases List.mem_cons.mp he with rfl | he
      · simpa using hnot
      · rw [lookupConn, List.find?_eq_none] at h
        exact h e (List.mem_filter.mp he).1
    | subscribe now sid dev dts =>
      simp only [bridgeStep, handleSubscribe]
      cases hl : lookupConn sid st with
      | none => exact h
      | some c0 =>
        simp only [lookupConn]
        rw [find?_map_idPreserving _ _ (fun c0 => by split <;> rfl) id]
        rw [show st.activeConnections.find? (fun c => c.id == id) = none
          from h]
        rfl
    | message now topic =>
      simp only [bridgeStep, deliverMessage]
      cases hroom : bridgeTopicRoom topic with
      | none => exact h
      | some room =>
        simp only [lookupConn]
        rw [find?_map_idPreserving _ _ (fun c0 => by split <;> rfl) id]
        rw [find?_map_idPreserving _ _ (fun c0 => by split <;> rfl) id]
        rw [show st.activeConnections.find? (fun c => c.id == id) = none
          from h]
        rfl
    | disconnect sid =>
      rw [lookupConn, List.find?_eq_none]
      intro e he
      rw [lookupConn, List.find?_eq_none] at h
      exact h e (List.mem_filter.mp he).1
    | reap now =>
      rw [lookupConn, List.find?_eq_none]
      intro e he
      rw [lookupConn, List.find?_eq_none] at h
      exact h e (List.mem_filter.mp he).1

/-- Only registered connections receive SSE fan-out frames. -/
theorem sseTargets_registered (st : BridgeState) (now : ℤ) (topic id : String)
    (h : id ∈ ((deliverMessage now topic st).2).sseTargets) :
    lookupConn id st ≠ none := by
  simp only [deliverMessage] at h
  cases hroom : bridgeTopicRoom topic with
  | none =>
    rw [hroom] at h
    simp at h
  | some room =>
    rw [hroom] at h
    simp only at h
    obtain ⟨c1, hc1, rfl⟩ := List.mem_map.mp h
    obtain ⟨hc1', hpre⟩ := List.mem_filter.mp hc1
    obtain ⟨c2, hc2, rfl⟩ := List.mem_map.mp hc1'
    have e2 := (deliverWsRefresh_pres now room c2).1
    rw [lookupConn]
    intro hnone
    rw [List.find?_eq_none] at hnone
    exact absurd (by simp [e2]) (hnone c2 hc2)



/-- C4, counterexample: after the sweep at 400000 ms removes websocket
connection "s1" (idle since 0 ms) from the registry, a fan-out on
`bike.000001.heartrate` still delivers to "s1" — the sweep does not touch
socket.io room membership — refuting "receives no further fan-out
deliveries after that sweep, for both persistent-socket and one-way-stream
transports". -/
theorem reapedWebsocketStillReceives :
    lookupConn "s1" (runBridge initBridgeState reaperTrace) = none ∧
    "s1" ∈ ((deliverMessage 400001 "bike.000001.heartrate"
      (runBridge initBridgeState reaperTrace)).2).wsTargets := by
  decide

/-- C4, amended: a connection idle strictly beyond the 5-minute threshold
at sweep time is removed from the registry by that sweep, and — absent a
reconnection under the same id — stays out of the registry and receives no
further one-way-stream (SSE) deliveries; persistent-socket fan-out, keyed
by socket.io room membership that the sweep leaves intact, can still reach
the reaped connection (see the counterexample). -/
theorem reaperRemovesRegistryEntry (ops0 : List BridgeOp) (now : ℤ)
    (id : String) (c : ConnectionInfo) (ops : List BridgeOp) (now' : ℤ)
    (topic : String)
    (h : lookupConn id (runBridge initBridgeState ops0) = some c)
    (hstale : now - c.lastActivity > staleThreshold)
    (hops : ops.all (fun op => !opAddsConn id op) = true) :
    lookupConn id (stepReap now (runBridge initBridgeState ops0)) = none ∧
    lookupConn id
      (runBridge (stepReap now (runBridge initBridgeState ops0)) ops) = none ∧
    id ∉ ((deliverMessage now' topic
      (runBridge (stepReap now (runBridge initBridgeState ops0)) ops)).2).sseTargets := by
  have h1 : lookupConn id (stepReap now (runBridge initBridgeState ops0)) = none :=
    reap_removes_stale _ now id c (idsNodup_run ops0) h hstale
  have h2 := lookup_none_run ops _ id h1 hops
  exact ⟨h1, h2, fun hmem => sseTargets_registered _ now' topic id hmem h2⟩

/-- C4 witness: the reaper theorem applied to the concrete idle websocket
client "s1". -/
theorem reaperRemovesRegistryEntry_witness :
    lookupConn "s1" (stepReap 400000 (runBridge initBridgeState
      [.wsConnect 0 "s1", .subscribe 0 "s1" "000001" none])) = none ∧
    lookupConn "s1" (runBridge (stepReap 400000 (runBridge initBridgeState
      [.wsConnect 0 "s1", .subscribe 0 "s1" "000001" none]))
      [.message 400001 "bike.000001.heartrate"]) = none ∧
    "s1" ∉ ((deliverMessage 400002 "bike.000001.heartrate"
      (runBridge (stepReap 400000 (runBridge initBridgeState
        [.wsConnect 0 "s1", .subscribe 0 "s1" "000001" none]))
        [.message 400001 "bike.000001.heartrate"])).2).sseTargets :=
  reaperRemovesRegistryEntry
    [.wsConnect 0 "s1", .subscribe 0 "s1" "000001" none] 400000 "s1"
    ⟨"s1", .websocket, 0, 0,
      ["device_000001_heartrate", "device_000001_cadence",
       "device_000001_speed", "device_000001_power",
       "device_000001_resistance", "device_000001_incline",
       "device_000001_fan"], some "000001"⟩
    [.message 400001 "bike.000001.heartrate"] 400002 "bike.000001.heartrate"
    (by decide) (by decide) (by decide)

end RedbackIoT
